import Mathlib

/-
Shallow embedding of the SEO toolkit of `src/utils/seo_tools.py` (class
FreeSEOTools) together with the configuration of `src/utils/config.py`.

Modelling conventions:
* Python strings are Lean `String`s; `\w`, `str.isdigit`, `str.lower` and
  whitespace are modelled at the ASCII level (the repository only ever feeds
  ASCII text to these helpers).
* Python `float` arithmetic is modelled by exact rationals (`ℚ`); `round(x, 1)`
  is round-half-to-even at one decimal, which is what CPython computes on the
  exact value.  All concrete inputs used below stay far from binary-float
  representation boundaries, so the rational model agrees with the float one.
* Network and HTML-parsing effects (requests.get, BeautifulSoup) are oracles
  carried in a `NetEnv` record; a Python exception raised by an oracle is an
  `Except.error`.  A Lean function that is total over the oracle models Python
  code that never lets an exception escape.
-/

/-- ASCII model of Python whitespace (the six characters `str.split()` and
`str.strip()` treat as separators). -/
def pyIsSpace (c : Char) : Bool :=
  c = ' ' || c = '\t' || c = '\n' || c = '\r' || c = '\x0b' || c = '\x0c'

/-- ASCII model of a regex `\w` word character: alphanumeric or underscore. -/
def isWordChar (c : Char) : Bool :=
  c.isAlphanum || c = '_'

/-- Model of Python `str.lower()` (ASCII letters). -/
def pyLower (s : String) : String :=
  String.mk (s.data.map Char.toLower)

/-- Model of Python `str.isdigit()`: nonempty and every character a digit. -/
def pyIsDigit (s : String) : Bool :=
  !s.data.isEmpty && s.data.all Char.isDigit

/-- Accumulator worker for `maxRuns`: `acc` holds the current run, reversed. -/
def runsAux (p : Char → Bool) (acc : List Char) : List Char → List (List Char)
  | [] => if acc.isEmpty then [] else [acc.reverse]
  | c :: cs =>
    if p c then runsAux p (c :: acc) cs
    else if acc.isEmpty then runsAux p acc cs
    else acc.reverse :: runsAux p [] cs

/-- The maximal nonempty runs of characters satisfying `p`, in order. -/
def maxRuns (p : Char → Bool) (cs : List Char) : List (List Char) :=
  runsAux p [] cs

/-- Model of Python `text.split()`: maximal runs of non-whitespace. -/
def pySplit (s : String) : List String :=
  (maxRuns (fun c => !pyIsSpace c) s.data).map String.mk

/-- Model of `re.findall(r'\b\w{3,}\b', s)`: the maximal word-character runs of
length at least 3 (a shorter maximal run has no match inside it, and the greedy
match on a longer run consumes the whole run). -/
def pyFindallWords (s : String) : List String :=
  ((maxRuns isWordChar s.data).filter (fun r => 3 ≤ r.length)).map String.mk

/-- Model of Python list slicing `l[:n]` for an arbitrary integer `n`:
a negative `n` counts from the end of the list (clamped at zero). -/
def pyTake (n : Int) (l : List α) : List α :=
  if 0 ≤ n then l.take n.toNat else l.take (l.length - (-n).toNat)

/-- The fixed stop-word set of `extract_keywords` (seo_tools.py lines 16-20). -/
def stop_words : List String :=
  ["the", "and", "of", "to", "in", "is", "it", "that", "for",
   "you", "was", "on", "are", "with", "as", "at", "be",
   "this", "have", "from", "or", "an", "by", "not"]

/-- Worker for `counterKeys`: `seen` holds the keys already inserted. -/
def counterKeysAux (seen : List String) : List String → List String
  | [] => []
  | w :: ws =>
    if seen.contains w then counterKeysAux seen ws
    else w :: counterKeysAux (w :: seen) ws

/-- The keys of `Counter(l)` (equivalently of the dict comprehension built from
it) in iteration order: first occurrences, in encounter order. -/
def counterKeys (l : List String) : List String :=
  counterKeysAux [] l

/-- `FreeSEOTools.extract_keywords` (seo_tools.py lines 13-25).  The dict
`word_scores` maps each Counter key to `count * len(word)`; `sorted(...,
key=..., reverse=True)` is Python's stable descending sort, realised here by a
stable insertion sort that puts `a` before `b` exactly when `score a ≥ score b`
(so equal scores keep first-encounter order).  The slice `[:top_n]` is
`pyTake`. -/
def extract_keywords (text : String) (top_n : Int) : List String :=
  let words := pyFindallWords (pyLower text)
  let filtered_words := words.filter (fun w => !stop_words.contains w && !pyIsDigit w)
  let score : String → Nat := fun w => filtered_words.count w * w.length
  pyTake top_n
    (List.insertionSort (fun a b => score b ≤ score a) (counterKeys filtered_words))

/-- Distinct elements in first-encounter order, written the way the spec
describes them ("count frequency per distinct token"): keep the head, drop its
later duplicates, recurse. -/
def distinctFirst : List String → List String
  | [] => []
  | w :: ws => w :: distinctFirst (ws.filter (fun v => v != w))
termination_by l => l.length
decreasing_by simpa using Nat.lt_succ_of_le (List.length_filter_le _ _)

/-- The quotient of two naturals as a rational.  `mkRat a b` equals
`(a : ℚ) / (b : ℚ)` (lemma `qdivNat_eq_cast_div` below); it is used instead of
`/` because the `Rat` field operations are irreducible and would block kernel
evaluation on concrete inputs. -/
def qdivNat (a b : Nat) : ℚ :=
  mkRat a b

/-- Round-half-to-even to an integer, the rounding CPython's `round` applies
to an exactly representable value.  With `q = n/d` (`d > 0`), the floor is
`n.fdiv d`, and the fractional part `(n.fmod d)/d` is compared with `1/2` by
comparing `2 * (n.fmod d)` with `d`. -/
def roundHalfEven (q : ℚ) : ℤ :=
  let n := q.num
  let d := (q.den : ℤ)
  let f := n.fdiv d
  let m := n.fmod d
  if 2 * m < d then f
  else if d < 2 * m then f + 1
  else if f % 2 = 0 then f else f + 1

/-- Multiplication of a rational by ten, written on the numerator so that it
kernel-evaluates (`Rat.mul` is irreducible); equals `q * 10` by
`qMulTen_eq_mul` below. -/
def qMulTen (q : ℚ) : ℚ :=
  mkRat (q.num * 10) q.den

/-- Model of Python `round(x, 1)`: round half-to-even at one decimal.  Equals
`(roundHalfEven (q * 10) : ℚ) / 10` by `pyRound1_eq_div` below. -/
def pyRound1 (q : ℚ) : ℚ :=
  mkRat (roundHalfEven (qMulTen q)) 10

/-- Split a character list at every separator, keeping empty fragments, as
`re.split` with a character class does.  The result always has one more
fragment than there are separators. -/
def splitSep (p : Char → Bool) : List Char → List (List Char)
  | [] => [[]]
  | c :: cs =>
    if p c then [] :: splitSep p cs
    else
      match splitSep p cs with
      | [] => [[c]]
      | f :: fs => (c :: f) :: fs

/-- The sentence separators of `calculate_readability`: `re.split(r'[.!?]', text)`. -/
def isSentenceSep (c : Char) : Bool :=
  c = '.' || c = '!' || c = '?'

/-- The readability report returned by `calculate_readability` (a Python dict
with these five fixed keys). -/
structure ReadabilityReport where
  word_count : Nat
  sentence_count : Nat
  avg_sentence_length : ℚ
  avg_word_length : ℚ
  reading_level : String
deriving DecidableEq

/-- `FreeSEOTools.calculate_readability` (seo_tools.py lines 88-104).
Sentences are the non-blank fragments of the `[.!?]` split; words come from
`text.split()`.  The two average fields are rounded to one decimal, while the
reading level is computed from the unrounded average sentence length. -/
def calculate_readability (text : String) : ReadabilityReport :=
  let sentences := splitSep isSentenceSep text.data
  let words := pySplit text
  let word_count := words.length
  let sentence_count := (sentences.filter (fun s => s.any (fun c => !pyIsSpace c))).length
  let avg_sentence_length : ℚ := if sentence_count > 0 then qdivNat word_count sentence_count else 0
  let avg_word_length : ℚ :=
    if word_count > 0 then qdivNat (words.map String.length).sum word_count else 0
  { word_count := word_count
    sentence_count := sentence_count
    avg_sentence_length := pyRound1 avg_sentence_length
    avg_word_length := pyRound1 avg_word_length
    reading_level :=
      if avg_sentence_length > 20 then "College"
      else if avg_sentence_length > 15 then "High School"
      else "Easy" }

/-- The unrounded average sentence length of `calculate_readability` (line 95):
`word_count / sentence_count` when there is a sentence, else `0`. -/
def rawAvgSentenceLength (text : String) : ℚ :=
  let sentences := splitSep isSentenceSep text.data
  let words := pySplit text
  let word_count := words.length
  let sentence_count := (sentences.filter (fun s => s.any (fun c => !pyIsSpace c))).length
  if sentence_count > 0 then qdivNat word_count sentence_count else 0

/-- The unrounded average word length of `calculate_readability` (line 96). -/
def rawAvgWordLength (text : String) : ℚ :=
  let words := pySplit text
  let word_count := words.length
  if word_count > 0 then qdivNat (words.map String.length).sum word_count else 0

/-- The reading-level bucketing of line 103 as a function of the (unrounded)
average sentence length. -/
def levelOf (q : ℚ) : String :=
  if q > 20 then "College"
  else if q > 15 then "High School"
  else "Easy"

/-- A sentence of `n` words: `n` copies of "a" joined by single spaces. -/
def sentenceA (n : Nat) : String :=
  String.intercalate " " (List.replicate n "a")

/-- A text with 21 sentences and 421 words: the unrounded average sentence
length is 421/21 ≈ 20.0476, which is above 20 but rounds to 20.0. -/
def text421 : String :=
  String.intercalate ". " (List.replicate 20 (sentenceA 20) ++ [sentenceA 21]) ++ "."

/-- A text with 1 sentence and 20 words: the average sentence length is
exactly 20. -/
def text20 : String :=
  sentenceA 20 ++ "."

/-- Reference computation transcribed from the spec's words (§4.1): lower-case;
tokens of word characters of length ≥ 3; drop the stop-word set; drop
purely-numeric tokens; frequency per distinct token; score = frequency times
token length; stable descending sort; first `top_n`. -/
def extract_keywords_spec (text : String) (top_n : Int) : List String :=
  let tokens := pyFindallWords (pyLower text)
  let kept := (tokens.filter (fun w => !stop_words.contains w)).filter (fun w => !pyIsDigit w)
  let score : String → Nat := fun w => kept.count w * w.length
  pyTake top_n
    (List.insertionSort (fun a b => score b ≤ score a) (distinctFirst kept))

/-- The environment-derived configuration of `src/utils/config.py` (lines 6-8):
`GOOGLE_API_KEY = os.getenv("GOOGLE_API_KEY")` is `None` when unset, while
`GOOGLE_CSE_ID = os.getenv("GOOGLE_CSE_ID", "")` defaults to the empty
string. -/
structure Config where
  GOOGLE_API_KEY : Option String
  GOOGLE_CSE_ID : String

/-- One item of the Custom Search response.  The code only reads
`item.get('link', '')` and `item.get('rank', '')`, so an item is modelled by
those two optional fields (`none` models an absent key). -/
structure SearchItem where
  link : Option String
  rank : Option String
deriving DecidableEq

/-- The queryable view of a fetched page that `analyze_competitors` reads from
BeautifulSoup.  `title`: `none` when there is no `<title>` tag, otherwise
`some s` where `s` is the tag's `.string` (itself optional in Python).
`h1`: the text of the first `<h1>`, if any.  `metaDesc`: `none` when there is
no `<meta name="description">` tag, `some c` when the tag is present with `c`
its optional `content` attribute (`some none` is a description tag without a
`content` attribute, on which the Python subscript raises `KeyError`).
`text`: the whole-page visible text `soup.get_text()`. -/
structure Soup where
  title : Option (Option String)
  h1 : Option String
  metaDesc : Option (Option String)
  text : String
deriving DecidableEq

/-- The oracles standing for the toolkit's two network interactions.  `search`
models the HTTP GET against the Custom Search endpoint with the given key, cx,
query and num: `Except.error` is a raised exception, `Except.ok (status,
items)` a response with its status code and parsed `items` list.  `fetch`
models `requests.get(url, ...)` followed by BeautifulSoup parsing:
`Except.error` is any per-page exception (timeout, connection error, parse
error). -/
structure NetEnv where
  config : Config
  search : Option String → String → String → Nat → Except String (Nat × List SearchItem)
  fetch : String → Except String Soup

/-- `FreeSEOTools.get_google_search_results` (seo_tools.py lines 28-47):
return `[]` when `Config.GOOGLE_CSE_ID` is falsy, otherwise issue the search
request; a non-200 status or a caught exception also yields `[]`. -/
def get_google_search_results (env : NetEnv) (query : String) (num_results : Nat) :
    List SearchItem :=
  if env.config.GOOGLE_CSE_ID = "" then []
  else
    match env.search env.config.GOOGLE_API_KEY env.config.GOOGLE_CSE_ID query num_results with
    | .error _ => []
    | .ok (status, items) => if status = 200 then items else []

/-- A record of one HTTP request issued against the Custom Search endpoint,
carrying the `params` dict of seo_tools.py lines 35-40. -/
structure SearchRequest where
  key : Option String
  cx : String
  q : String
  num : Nat
deriving DecidableEq

/-- The search requests issued by a call to `get_google_search_results`: the
same control flow as the function itself, instrumented to record the request
of line 41 instead of its response.  The early return of line 30-31 issues
none. -/
def google_search_requests (env : NetEnv) (query : String) (num_results : Nat) :
    List SearchRequest :=
  if env.config.GOOGLE_CSE_ID = "" then []
  else [{ key := env.config.GOOGLE_API_KEY, cx := env.config.GOOGLE_CSE_ID,
          q := query, num := num_results }]

/-- One row of the competitor DataFrame (seo_tools.py lines 70-77).  `title`
is optional because `soup.title.string` can be Python `None`. -/
structure CompetitorRecord where
  url : String
  title : Option String
  h1 : String
  metaDescription : String
  wordCount : Nat
  rank : String
deriving DecidableEq

/-- The record appended for a successfully analysed page (seo_tools.py lines
64-77), given the already-extracted meta description. -/
def buildRecord (url : String) (item : SearchItem) (soup : Soup)
    (metaDescription : String) : CompetitorRecord :=
  { url := url
    title := match soup.title with | none => some "No title" | some s => s
    h1 := match soup.h1 with | none => "No H1" | some s => s
    metaDescription := metaDescription
    wordCount := (pySplit soup.text).length
    rank := match item.rank with | none => "" | some r => r }

/-- The body of one iteration of the `for item in results` loop of
`analyze_competitors` (seo_tools.py lines 55-83): fetch and parse the page,
build the record.  `none` models the `except: continue` branch, reached when
the fetch/parse raises or when a present description tag has no `content`
attribute (the subscript on line 67 raises `KeyError`). -/
def analyzeItem (env : NetEnv) (item : SearchItem) : Option CompetitorRecord :=
  let url := match item.link with | none => "" | some u => u
  match env.fetch url with
  | .error _ => none
  | .ok soup =>
    match soup.metaDesc with
    | some none => none
    | none => some (buildRecord url item soup "No meta description")
    | some (some c) => some (buildRecord url item soup c)

/-- The `for item in results` loop of `analyze_competitors`, accumulating
`competitor_data` in order and skipping failed iterations. -/
def competitorLoop (env : NetEnv) : List SearchItem → List CompetitorRecord
  | [] => []
  | item :: rest =>
    match analyzeItem env item with
    | none => competitorLoop env rest
    | some r => r :: competitorLoop env rest

/-- `FreeSEOTools.analyze_competitors` (seo_tools.py lines 50-85).  The
returned DataFrame is modelled by its list of rows. -/
def analyze_competitors (env : NetEnv) (query : String) (num_competitors : Nat) :
    List CompetitorRecord :=
  competitorLoop env (get_google_search_results env query num_competitors)

/-- `FreeSEOTools.generate_meta_tags` (seo_tools.py lines 106-116): the
f-string template with the three inputs spliced in verbatim (no escaping). -/
def generate_meta_tags (title description : String) (keywords : List String) : String :=
  let keywords_str := String.intercalate ", " keywords
  "\n        <title>" ++ title
    ++ "</title>\n        <meta name=\"description\" content=\"" ++ description
    ++ "\">\n        <meta name=\"keywords\" content=\"" ++ keywords_str
    ++ "\">\n        <meta property=\"og:title\" content=\"" ++ title
    ++ "\">\n        <meta property=\"og:description\" content=\"" ++ description
    ++ "\">\n        "

/-- `pat` occurs verbatim somewhere inside `s`. -/
def SubStr (pat s : String) : Prop :=
  ∃ pre post : String, s = pre ++ pat ++ post

/-- A page with all three elements present. -/
def soupFull : Soup :=
  { title := some (some "t"), h1 := some "h", metaDesc := some (some "d"), text := "w1 w2" }

/-- A page lacking `<title>`, `<h1>` and the description `<meta>` entirely. -/
def soupBare : Soup :=
  { title := none, h1 := none, metaDesc := none, text := "w1 w2 w3" }

/-- A page lacking `<title>` and `<h1>` but carrying a
`<meta name="description">` tag that has no `content` attribute. -/
def soupNoContent : Soup :=
  { title := none, h1 := none, metaDesc := some none, text := "" }

/-- An unconfigured environment: `GOOGLE_CSE_ID` unset (empty) and
`GOOGLE_API_KEY` unset, with a live search backend behind it. -/
def envUnconfigured : NetEnv :=
  { config := { GOOGLE_API_KEY := none, GOOGLE_CSE_ID := "" }
    search := fun _ _ _ _ => .ok (200, [{ link := some "u1", rank := some "1" }])
    fetch := fun _ => .ok soupFull }

/-- An environment with `GOOGLE_CSE_ID` set but `GOOGLE_API_KEY` unset. -/
def envCseOnly : NetEnv :=
  { config := { GOOGLE_API_KEY := none, GOOGLE_CSE_ID := "cse-1" }
    search := fun _ _ _ _ => .ok (200, [])
    fetch := fun _ => .ok soupFull }

/-- Three search results whose middle page times out. -/
def envPartial : NetEnv :=
  { config := { GOOGLE_API_KEY := some "k", GOOGLE_CSE_ID := "cse-1" }
    search := fun _ _ _ _ => .ok (200,
      [{ link := some "u1", rank := some "1" },
       { link := some "u2", rank := some "2" },
       { link := some "u3", rank := some "3" }])
    fetch := fun u => if u = "u2" then .error "timeout" else .ok soupFull }

/-- An environment whose single result page is `soupBare`. -/
def envBare : NetEnv :=
  { config := { GOOGLE_API_KEY := some "k", GOOGLE_CSE_ID := "cse-1" }
    search := fun _ _ _ _ => .ok (200, [{ link := some "u1", rank := some "1" }])
    fetch := fun _ => .ok soupBare }

/-- An environment whose single result page is `soupNoContent`. -/
def envNoContent : NetEnv :=
  { config := { GOOGLE_API_KEY := some "k", GOOGLE_CSE_ID := "cse-1" }
    search := fun _ _ _ _ => .ok (200, [{ link := some "u1", rank := some "1" }])
    fetch := fun _ => .ok soupNoContent }

theorem qdivNat_eq_cast_div (a b : Nat) : qdivNat a b = (a : ℚ) / (b : ℚ) := by
  unfold qdivNat
  rw [Rat.mkRat_eq_div]
  push_cast
  rfl

theorem qMulTen_eq_mul (q : ℚ) : qMulTen q = q * 10 := by
  unfold qMulTen
  rw [Rat.mkRat_eq_div]
  push_cast
  conv_rhs => rw [← Rat.num_div_den q]
  ring

theorem pyRound1_eq_div (q : ℚ) : pyRound1 q = (roundHalfEven (q * 10) : ℚ) / 10 := by
  unfold pyRound1
  rw [Rat.mkRat_eq_div, qMulTen_eq_mul]
  norm_num

/-- C4: `calculate_readability("")` returns a report with zero counts, zero
averages and reading level "Easy". -/
theorem calculate_readability_empty :
    calculate_readability "" =
      { word_count := 0, sentence_count := 0, avg_sentence_length := 0,
        avg_word_length := 0, reading_level := "Easy" } := by
  decide

set_option maxRecDepth 8000 in
/-- C3 counterexample: two reports with equal (rounded) `avg_sentence_length`
fields 20.0 but different reading levels.  `text421` has 421 words in 21
sentences, so its unrounded average 421/21 ≈ 20.048 is above the College
threshold but rounds down to 20.0; `text20` has 20 words in one sentence,
average exactly 20, level "High School". -/
theorem reading_level_not_function_of_rounded_field :
    (calculate_readability text421).avg_sentence_length =
      (calculate_readability text20).avg_sentence_length
    ∧ (calculate_readability text421).reading_level ≠
      (calculate_readability text20).reading_level := by
  decide

/-- C3 amended: the reading level is a pure function (thresholds 15, 20) of
the *unrounded* average sentence length, not of the rounded
`avg_sentence_length` field. -/
theorem reading_level_function_of_raw_average (text : String) :
    (calculate_readability text).reading_level = levelOf (rawAvgSentenceLength text) :=
  rfl

set_option maxRecDepth 8000 in
/-- C9: both average fields are the exact ratios rounded to one decimal,
while the reading level is bucketed from the unrounded ratio
`word_count / sentence_count`; on `text421` the reported level ("College")
disagrees with what the rounded field 20.0 alone would predict
("High School"). -/
theorem readability_rounds_fields_but_not_level :
    (∀ text : String,
      (calculate_readability text).avg_sentence_length =
        pyRound1 (((calculate_readability text).word_count : ℚ) /
          ((calculate_readability text).sentence_count : ℚ))
      ∧ (calculate_readability text).avg_word_length =
        pyRound1 ((((pySplit text).map String.length).sum : ℚ) /
          ((pySplit text).length : ℚ))
      ∧ (calculate_readability text).reading_level =
        levelOf (((calculate_readability text).word_count : ℚ) /
          ((calculate_readability text).sentence_count : ℚ)))
    ∧ (calculate_readability text421).avg_sentence_length = 20
    ∧ (calculate_readability text421).reading_level = "College"
    ∧ levelOf ((calculate_readability text421).avg_sentence_length) = "High School" := by
  constructor
  · intro text
    unfold calculate_readability
    simp only
    refine ⟨?_, ?_, ?_⟩
    · by_cases h : ((splitSep isSentenceSep text.data).filter
          (fun s => s.any (fun c => !pyIsSpace c))).length > 0
      · rw [if_pos h, qdivNat_eq_cast_div]
      · rw [if_neg h]
        have h0 : ((splitSep isSentenceSep text.data).filter
            (fun s => s.any (fun c => !pyIsSpace c))).length = 0 := by omega
        rw [h0]
        norm_num
    · by_cases h : (pySplit text).length > 0
      · rw [if_pos h, qdivNat_eq_cast_div]
      · rw [if_neg h]
        have h0 : (pySplit text).length = 0 := by omega
        rw [h0]
        norm_num
    · unfold levelOf
      by_cases h : ((splitSep isSentenceSep text.data).filter
          (fun s => s.any (fun c => !pyIsSpace c))).length > 0
      · rw [if_pos h, qdivNat_eq_cast_div]
      · rw [if_neg h]
        have h0 : ((splitSep isSentenceSep text.data).filter
            (fun s => s.any (fun c => !pyIsSpace c))).length = 0 := by omega
        rw [h0]
        norm_num
  · refine ⟨?_, ?_, ?_⟩ <;> decide

/-- C1 counterexample: the length bound fails for a negative `top_n`.  Python
slicing `[:n]` with `n = -1` drops only the last element, so
`extract_keywords("cat dog", -1) = ["cat"]` has length 1, which is not at
most `-1`. -/
theorem extract_keywords_length_negative_counterexample :
    extract_keywords "cat dog" (-1) = ["cat"]
    ∧ ¬ (((extract_keywords "cat dog" (-1)).length : ℤ) ≤ -1) := by
  decide

/-- C1 amended: for every text and every nonnegative integer `n`, the keyword
list returned by `extract_keywords(text, n)` has length at most `n` (for a
negative `n`, Python's slice semantics can return a longer list). -/
theorem extract_keywords_length_le (text : String) (n : ℤ) (h : 0 ≤ n) :
    ((extract_keywords text n).length : ℤ) ≤ n := by
  have key : ∀ l : List String, (pyTake n l).length ≤ n.toNat := by
    intro l
    unfold pyTake
    rw [if_pos h]
    exact List.length_take_le _ _
  calc ((extract_keywords text n).length : ℤ)
      ≤ (n.toNat : ℤ) := by exact_mod_cast key _
    _ = n := Int.toNat_of_nonneg h

/-- Witness for the amended C1 at `text = "the cat sat on the mat"`, `n = 2`. -/
theorem extract_keywords_length_le_witness :
    ((0 : ℤ) ≤ 2) ∧ ((extract_keywords "the cat sat on the mat" 2).length : ℤ) ≤ 2 :=
  ⟨by decide, extract_keywords_length_le "the cat sat on the mat" 2 (by decide)⟩

theorem counterKeysAux_eq_distinctFirst (l : List String) :
    ∀ seen : List String,
      counterKeysAux seen l = distinctFirst (l.filter (fun w => !seen.contains w)) := by
  induction l with
  | nil => intro seen; simp [counterKeysAux, distinctFirst]
  | cons w ws ih =>
    intro seen
    simp only [counterKeysAux, List.filter_cons]
    by_cases hw : seen.contains w
    · rw [if_pos hw]
      simp only [hw, Bool.not_true]
      rw [if_neg (by simp)]
      exact ih seen
    · rw [if_neg hw]
      simp only [hw, Bool.not_false]
      rw [if_pos trivial]
      rw [distinctFirst]
      rw [ih (w :: seen)]
      congr 1
      rw [List.filter_filter]
      apply congrArg distinctFirst
      apply List.filter_congr
      intro v _
      show (!(w :: seen).contains v) = (v != w && !seen.contains v)
      simp only [List.contains_cons, Bool.not_or, bne]

theorem counterKeys_eq_distinctFirst (l : List String) :
    counterKeys l = distinctFirst l := by
  unfold counterKeys
  rw [counterKeysAux_eq_distinctFirst]
  apply congrArg distinctFirst
  simp

theorem counterKeysAux_nodup (l : List String) :
    ∀ seen : List String,
      (counterKeysAux seen l).Nodup
      ∧ ∀ w ∈ counterKeysAux seen l, seen.contains w = false := by
  induction l with
  | nil => intro seen; simp [counterKeysAux]
  | cons w ws ih =>
    intro seen
    simp only [counterKeysAux]
    by_cases hw : seen.contains w
    · rw [if_pos hw]; exact ih seen
    · rw [if_neg hw]
      obtain ⟨hnd, hnotin⟩ := ih (w :: seen)
      refine ⟨List.Nodup.cons ?_ hnd, ?_⟩
      · intro hmem
        have := hnotin w hmem
        simp [List.contains_cons] at this
      · intro v hv
        rcases List.mem_cons.mp hv with h | h
        · subst h; simpa using hw
        · have := hnotin v h
          simp [List.contains_cons] at this
          exact by simpa using this.2

theorem counterKeys_nodup (l : List String) : (counterKeys l).Nodup :=
  (counterKeysAux_nodup l []).1

theorem pyTake_sublist (n : ℤ) (l : List α) : (pyTake n l).Sublist l := by
  unfold pyTake
  split
  · exact List.take_sublist _ _
  · exact List.take_sublist _ _

/-- C2: `extract_keywords` coincides with the reference computation
transcribed from the spec (lower-case, word tokens of length ≥ 3, drop
stop-words and purely numeric tokens, score each distinct token by frequency
times length, stable descending sort, first `top_n`); in particular the
result never contains duplicates and the empty string yields the empty
list. -/
theorem extract_keywords_matches_reference (text : String) (top_n : ℤ) :
    extract_keywords text top_n = extract_keywords_spec text top_n
    ∧ (extract_keywords text top_n).Nodup
    ∧ extract_keywords "" top_n = [] := by
  have hkept : ((pyFindallWords (pyLower text)).filter (fun w => !stop_words.contains w)).filter
        (fun w => !pyIsDigit w)
      = (pyFindallWords (pyLower text)).filter
          (fun w => !stop_words.contains w && !pyIsDigit w) := by
    rw [List.filter_filter]
    apply List.filter_congr
    intro v _
    exact Bool.and_comm _ _
  refine ⟨?_, ?_, ?_⟩
  · simp only [extract_keywords, extract_keywords_spec]
    rw [hkept, counterKeys_eq_distinctFirst]
  · simp only [extract_keywords]
    apply List.Nodup.sublist (pyTake_sublist _ _)
    exact ((List.perm_insertionSort _ _).nodup_iff).mpr (counterKeys_nodup _)
  · simp only [extract_keywords]
    have h0 : pyFindallWords (pyLower "") = [] := rfl
    rw [h0]
    show pyTake top_n [] = []
    unfold pyTake
    split <;> simp

/-- C5: with no search credentials configured (`GOOGLE_CSE_ID` empty, the
falsy default of `os.getenv("GOOGLE_CSE_ID", "")`), `analyze_competitors`
returns the empty sequence.  The function is total over the oracle
environment: every exception site of the source is wrapped in a handler that
is modelled by the `Except` matches inside `get_google_search_results` and
`analyzeItem`, so no exception propagates to the caller. -/
theorem analyze_competitors_unconfigured_empty (env : NetEnv) (query : String)
    (num_competitors : Nat) (h : env.config.GOOGLE_CSE_ID = "") :
    analyze_competitors env query num_competitors = [] := by
  unfold analyze_competitors get_google_search_results
  rw [if_pos h]
  rfl

/-- Witness for C5: a concrete unconfigured environment whose search backend
would answer if it were asked. -/
theorem analyze_competitors_unconfigured_empty_witness :
    analyze_competitors envUnconfigured "lean" 3 = [] :=
  analyze_competitors_unconfigured_empty envUnconfigured "lean" 3 rfl

/-- C10: the early return of `get_google_search_results` is governed solely
by `GOOGLE_CSE_ID` (line 30 tests only `Config.GOOGLE_CSE_ID`): when the CSE
id is set and `GOOGLE_API_KEY` is unset (`None`), a search request carrying
`key = None` is still issued to the backend. -/
theorem search_request_issued_without_api_key (env : NetEnv) (query : String)
    (num_results : Nat) (hcse : env.config.GOOGLE_CSE_ID ≠ "")
    (hkey : env.config.GOOGLE_API_KEY = none) :
    google_search_requests env query num_results =
      [{ key := none, cx := env.config.GOOGLE_CSE_ID, q := query, num := num_results }] := by
  unfold google_search_requests
  rw [if_neg hcse, hkey]

/-- Witness for C10: with `GOOGLE_CSE_ID = "cse-1"` and no API key, the
request is issued (the issued-request list is nonempty). -/
theorem search_request_issued_without_api_key_witness :
    google_search_requests envCseOnly "lean" 5 =
      [{ key := none, cx := "cse-1", q := "lean", num := 5 }] :=
  search_request_issued_without_api_key envCseOnly "lean" 5 (by decide) rfl

theorem competitorLoop_eq_filterMap (env : NetEnv) (l : List SearchItem) :
    competitorLoop env l = l.filterMap (analyzeItem env) := by
  induction l with
  | nil => rfl
  | cons item rest ih =>
    simp only [competitorLoop, List.filterMap_cons]
    cases analyzeItem env item <;> simp [ih]

/-- C6: when the search results split as `pre ++ [x] ++ post` and analysing
`x` fails (its fetch or parse raises, modelled by `analyzeItem env x = none`),
`analyze_competitors` returns exactly the records of the successfully
analysed pages of `pre` followed by those of `post` — one record per page on
which `analyzeItem` succeeds, in the original order, with the failing entry
omitted — and the failure is not propagated (the call still returns a
list). -/
theorem analyze_competitors_skips_failing_pages (env : NetEnv) (query : String)
    (num_competitors : Nat) (pre post : List SearchItem) (x : SearchItem)
    (hres : get_google_search_results env query num_competitors = pre ++ x :: post)
    (hfail : analyzeItem env x = none) :
    analyze_competitors env query num_competitors =
      pre.filterMap (analyzeItem env) ++ post.filterMap (analyzeItem env) := by
  unfold analyze_competitors
  rw [hres, competitorLoop_eq_filterMap, List.filterMap_append, List.filterMap_cons, hfail]

/-- Witness for C6: three search results whose middle page times out; the
records of the first and third pages are returned, in order. -/
theorem analyze_competitors_skips_failing_pages_witness :
    analyze_competitors envPartial "lean" 3 =
      [{ url := "u1", title := some "t", h1 := "h", metaDescription := "d",
         wordCount := 2, rank := "1" },
       { url := "u3", title := some "t", h1 := "h", metaDescription := "d",
         wordCount := 2, rank := "3" }] := by
  have h := analyze_competitors_skips_failing_pages envPartial "lean" 3
    [{ link := some "u1", rank := some "1" }]
    [{ link := some "u3", rank := some "3" }]
    { link := some "u2", rank := some "2" }
    (by decide) (by decide)
  exact h.trans (by decide)

/-- C7 counterexample: a fetched page lacking a `<title>` (and `<h1>`) whose
`<meta name="description">` tag has no `content` attribute is *skipped* (the
subscript `meta_desc['content']` on line 67 raises `KeyError`, caught by the
per-page handler), so no record with the sentinel "No title" is produced for
it. -/
theorem analyzeItem_missing_title_skipped_counterexample :
    envNoContent.fetch "u1" = .ok soupNoContent
    ∧ soupNoContent.title = none
    ∧ analyzeItem envNoContent { link := some "u1", rank := some "1" } = none := by
  refine ⟨rfl, rfl, rfl⟩

/-- C7 amended: for every fetched page whose parse does not itself raise — in
particular, any present `<meta name="description">` tag carries a `content`
attribute — a record is produced even when the title, first h1 or
meta-description element is missing, substituting the sentinels "No title",
"No H1" and "No meta description" respectively. -/
theorem analyzeItem_substitutes_sentinels (env : NetEnv) (item : SearchItem)
    (soup : Soup)
    (hf : env.fetch (match item.link with | none => "" | some u => u) = .ok soup)
    (hm : soup.metaDesc ≠ some none) :
    ∃ r, analyzeItem env item = some r
      ∧ (soup.title = none → r.title = some "No title")
      ∧ (soup.h1 = none → r.h1 = "No H1")
      ∧ (soup.metaDesc = none → r.metaDescription = "No meta description") := by
  simp only [analyzeItem]
  rw [hf]
  dsimp only
  rcases hmd : soup.metaDesc with _ | (_ | c)
  · refine ⟨_, rfl, ?_, ?_, ?_⟩
    · intro ht; simp [buildRecord, ht]
    · intro hh; simp [buildRecord, hh]
    · intro _; rfl
  · exact absurd hmd hm
  · refine ⟨_, rfl, ?_, ?_, ?_⟩
    · intro ht; simp [buildRecord, ht]
    · intro hh; simp [buildRecord, hh]
    · intro hcontra
      exact Option.noConfusion hcontra

/-- Witness for the amended C7: a concrete fetched page lacking all three
elements gets a record with all three sentinel strings. -/
theorem analyzeItem_substitutes_sentinels_witness :
    ∃ r, analyzeItem envBare { link := some "u1", rank := some "1" } = some r
      ∧ r.title = some "No title" ∧ r.h1 = "No H1"
      ∧ r.metaDescription = "No meta description" := by
  obtain ⟨r, h1, h2, h3, h4⟩ := analyzeItem_substitutes_sentinels envBare
    { link := some "u1", rank := some "1" } soupBare rfl (by decide)
  exact ⟨r, h1, h2 rfl, h3 rfl, h4 rfl⟩

/-- C8: the meta-tag generator splices title, description and the
comma-joined keyword list verbatim (unescaped) into the fixed template, for
all inputs; in particular `generate_meta_tags "T" "D" ["a", "b"]` contains
the literal substrings `<title>T</title>`, `content="D"` and
`content="a, b"`. -/
theorem generate_meta_tags_embeds_verbatim (t d : String) (ks : List String) :
    SubStr ("<title>" ++ t ++ "</title>") (generate_meta_tags t d ks)
    ∧ SubStr ("content=\"" ++ d ++ "\"") (generate_meta_tags t d ks)
    ∧ SubStr ("content=\"" ++ String.intercalate ", " ks ++ "\"") (generate_meta_tags t d ks)
    ∧ SubStr "<title>T</title>" (generate_meta_tags "T" "D" ["a", "b"])
    ∧ SubStr "content=\"D\"" (generate_meta_tags "T" "D" ["a", "b"])
    ∧ SubStr "content=\"a, b\"" (generate_meta_tags "T" "D" ["a", "b"]) := by
  have split1 : ("\n        <title>" : String) = "\n        " ++ "<title>" := rfl
  have split2 : ("</title>\n        <meta name=\"description\" content=\"" : String)
      = "</title>" ++ "\n        <meta name=\"description\" " ++ "content=\"" := rfl
  have split3 : ("\">\n        <meta name=\"keywords\" content=\"" : String)
      = "\"" ++ ">\n        <meta name=\"keywords\" " ++ "content=\"" := rfl
  have split4 : ("\">\n        <meta property=\"og:title\" content=\"" : String)
      = "\"" ++ ">\n        <meta property=\"og:title\" content=\"" := rfl
  have h1 : ∀ t' d' : String, ∀ ks' : List String,
      SubStr ("<title>" ++ t' ++ "</title>") (generate_meta_tags t' d' ks') := by
    intro t' d' ks'
    refine ⟨"\n        ",
      "\n        <meta name=\"description\" " ++ "content=\"" ++ d'
        ++ "\"" ++ ">\n        <meta name=\"keywords\" " ++ "content=\""
        ++ String.intercalate ", " ks'
        ++ "\"" ++ ">\n        <meta property=\"og:title\" content=\"" ++ t'
        ++ "\">\n        <meta property=\"og:description\" content=\"" ++ d'
        ++ "\">\n        ", ?_⟩
    simp only [generate_meta_tags]
    rw [split1, split2, split3, split4]
    simp only [String.append_assoc]
  have h2 : ∀ t' d' : String, ∀ ks' : List String,
      SubStr ("content=\"" ++ d' ++ "\"") (generate_meta_tags t' d' ks') := by
    intro t' d' ks'
    refine ⟨"\n        " ++ "<title>" ++ t' ++ "</title>"
        ++ "\n        <meta name=\"description\" ",
      ">\n        <meta name=\"keywords\" " ++ "content=\""
        ++ String.intercalate ", " ks'
        ++ "\"" ++ ">\n        <meta property=\"og:title\" content=\"" ++ t'
        ++ "\">\n        <meta property=\"og:description\" content=\"" ++ d'
        ++ "\">\n        ", ?_⟩
    simp only [generate_meta_tags]
    rw [split1, split2, split3, split4]
    simp only [String.append_assoc]
  have h3 : ∀ t' d' : String, ∀ ks' : List String,
      SubStr ("content=\"" ++ String.intercalate ", " ks' ++ "\"")
        (generate_meta_tags t' d' ks') := by
    intro t' d' ks'
    refine ⟨"\n        " ++ "<title>" ++ t' ++ "</title>"
        ++ "\n        <meta name=\"description\" " ++ "content=\"" ++ d'
        ++ "\"" ++ ">\n        <meta name=\"keywords\" ",
      ">\n        <meta property=\"og:title\" content=\"" ++ t'
        ++ "\">\n        <meta property=\"og:description\" content=\"" ++ d'
        ++ "\">\n        ", ?_⟩
    simp only [generate_meta_tags]
    rw [split1, split2, split3, split4]
    simp only [String.append_assoc]
  refine ⟨h1 t d ks, h2 t d ks, h3 t d ks, ?_, ?_, ?_⟩
  · have := h1 "T" "D" ["a", "b"]
    rwa [show ("<title>" ++ "T" ++ "</title>" : String) = "<title>T</title>" from rfl] at this
  · have := h2 "T" "D" ["a", "b"]
    rwa [show ("content=\"" ++ "D" ++ "\"" : String) = "content=\"D\"" from rfl] at this
  · have := h3 "T" "D" ["a", "b"]
    rwa [show ("content=\"" ++ String.intercalate ", " ["a", "b"] ++ "\"" : String)
      = "content=\"a, b\"" from rfl] at this
